/-
Verification of the WhatsApp newsletter sender (personalized_AI_whatsapp_newsletter
repository) against its natural-language specification.

The development shallowly embeds the Python sources:
  * execution/google_sheets.py   — contact parsing and pending-row selection,
  * execution/whatsapp_sender.py — selector fallback resolution and Chrome startup,
  * execution/send_messages.py   — the send-loop orchestrator.

Python strings are modelled as `List Char` (`Str` below); `str.strip` becomes
`stripList`, `str.split(sep, 1)` becomes `split1`.  External effects (Selenium
waits, the Sheets API, the TCP port probe, the random jitter, the stop flag
written by the dashboard thread) are modelled as explicit oracle parameters, and
observable side effects (status write-backs, delivery attempts, the persisted
run log) are recorded in explicit traces so that the spec's counting claims can
be stated.
-/
import Mathlib

set_option autoImplicit false

abbrev Str := List Char

/-- Python `str.strip()`: drop leading and trailing whitespace. -/
def stripList (s : Str) : Str :=
  ((s.dropWhile Char.isWhitespace).reverse.dropWhile Char.isWhitespace).reverse

/-- Everything after the first occurrence of `sep` (used to state what
`split(sep, 1)[1]` returns when `sep` occurs). -/
def afterFirst (sep : Char) : Str → Str
  | [] => []
  | x :: xs => if x = sep then xs else afterFirst sep xs

/-- Python `s.split(sep, 1)`: the part before the first `sep`, and — when `sep`
occurs — `some` of the part after it. -/
def split1 (sep : Char) : Str → Str × Option Str
  | [] => ([], none)
  | x :: xs =>
    if x = sep then ([], some xs)
    else
      let r := split1 sep xs
      (x :: r.1, r.2)

/-- Embeds `google_sheets.extract_first_name`: extract the first name from a
`'Last, First'` sort name, falling back to `"there"`. -/
def extract_first_name (sort_name : Str) : Str :=
  if sort_name = [] ∨ stripList sort_name = [] then "there".toList
  else if ',' ∈ sort_name then
    if stripList ((split1 ',' sort_name).2.getD []) = [] then "there".toList
    else stripList ((split1 ',' sort_name).2.getD [])
  else stripList sort_name

/-- Embeds `google_sheets.normalize_phone`: keep only the digit characters.
Python's `c.isdigit()` is modelled by `Char.isDigit` (the phone columns are
ASCII). -/
def normalize_phone (phone_raw : Str) : Str :=
  if phone_raw = [] then [] else phone_raw.filter Char.isDigit

/-- Embeds the `Contact` dataclass of `google_sheets.py`. -/
structure Contact where
  row_number : Nat
  sort_name : Str
  first_name : Str
  phone_raw : Str
  phone_clean : Str
deriving DecidableEq, Repr

/-- A sheet row: the list of cell strings (columns A, B, C, D, ...). -/
abbrev Row := List Str

/-- One iteration of the row loop in `google_sheets.get_pending_contacts`
(after the limit check): `none` when the row is skipped (non-empty status,
blank phone, or no digits in the phone), otherwise the built `Contact`.
Accessing a padded-out cell `row[k]` for `k < 4` is `row.getD k []`, since the
source pads short rows with `""`. -/
def rowContact (idx : Nat) (row : Row) : Option Contact :=
  if stripList (row.getD 0 []) ≠ [] then none
  else if stripList (row.getD 3 []) = [] then none
  else if normalize_phone (stripList (row.getD 3 [])) = [] then none
  else some ⟨idx, stripList (row.getD 2 []),
    extract_first_name (stripList (row.getD 2 [])),
    stripList (row.getD 3 []),
    normalize_phone (stripList (row.getD 3 []))⟩

/-- The accumulation loop of `get_pending_contacts`: `cnt` is the number of
contacts collected so far (the loop breaks once `cnt` reaches `limit`). -/
def pendingAux (limit : Nat) : List Row → Nat → Nat → List Contact
  | [], _, _ => []
  | row :: rest, idx, cnt =>
    if limit ≤ cnt then []
    else
      match rowContact idx row with
      | none => pendingAux limit rest (idx + 1) cnt
      | some c => c :: pendingAux limit rest (idx + 1) (cnt + 1)

/-- Embeds `google_sheets.get_pending_contacts`, with the fetched cell grid
`all_rows` passed in place of the Sheets API response.  The header row is
skipped and data rows are numbered from 2, as in the source. -/
def get_pending_contacts (limit : Nat) (all_rows : List Row) : List Contact :=
  pendingAux limit (all_rows.drop 1) 2 0

/-- The uncapped qualifying-row sequence: every data row that the loop body of
`get_pending_contacts` would accept, in row order. -/
def qualifyingRows : List Row → Nat → List Contact
  | [], _ => []
  | row :: rest, idx =>
    match rowContact idx row with
    | none => qualifyingRows rest (idx + 1)
    | some c => c :: qualifyingRows rest (idx + 1)

/-- Embeds a `write_status(row_number, success)` call of `google_sheets.py` as
the observable event it produces (the row written and the status flag). -/
abbrev WriteEvent := Nat × Bool

-- Basic lemmas about the string utilities.

theorem mem_dropWhile_of_mem {α : Type} {p : α → Bool} {a : α} :
    ∀ {l : List α}, a ∈ l → p a = false → a ∈ l.dropWhile p := by
  intro l
  induction l with
  | nil => intro h; cases h
  | cons x xs ih =>
    intro h hpa
    rw [List.dropWhile_cons]
    by_cases hx : p x = true
    · simp only [hx, if_true]
      cases h with
      | head => rw [hpa] at hx; cases hx
      | tail _ h' => exact ih h' hpa
    · simp only [hx, if_false]
      exact h

theorem mem_stripList_of_mem {a : Char} {s : Str} (h : a ∈ s)
    (ha : a.isWhitespace = false) : a ∈ stripList s := by
  unfold stripList
  rw [List.mem_reverse]
  apply mem_dropWhile_of_mem _ ha
  rw [List.mem_reverse]
  exact mem_dropWhile_of_mem h ha

theorem stripList_ne_nil_of_comma {s : Str} (h : ',' ∈ s) : stripList s ≠ [] := by
  intro hnil
  have : ',' ∈ stripList s := mem_stripList_of_mem h (by decide)
  rw [hnil] at this
  cases this

theorem split1_snd_eq_afterFirst {sep : Char} :
    ∀ {s : Str}, sep ∈ s → (split1 sep s).2 = some (afterFirst sep s) := by
  intro s
  induction s with
  | nil => intro h; cases h
  | cons x xs ih =>
    intro h
    by_cases hx : x = sep
    · subst hx
      simp [split1, afterFirst]
    · have hmem : sep ∈ xs := by
        cases h with
        | head => exact absurd rfl hx
        | tail _ h' => exact h'
      simp only [split1, afterFirst, if_neg hx]
      exact ih hmem

-- Claims C4, C10 and C5: the string helpers of google_sheets.py.

/-- C4 (counterexample): the claim says that for every sort-name string
containing a comma, `extract_first_name` returns the trimmed substring after
the first comma.  On `"Smith, "` that substring trims to the empty string, but
the code returns the fallback `"there"` instead, so the claim as stated is
false. -/
theorem extract_first_name_comma_claim_false :
    ¬ extract_first_name "Smith, ".toList =
        stripList (afterFirst ',' "Smith, ".toList) := by
  decide

/-- C4 (amended): for every sort-name string containing a comma,
`extract_first_name` returns the trimmed substring after the first comma if
that substring is non-empty, and the fallback `"there"` otherwise; a comma-free
string that is not all whitespace returns itself trimmed; a string that trims
to empty returns the fallback `"there"`. -/
theorem extract_first_name_spec (s : Str) :
    (',' ∈ s → extract_first_name s =
      (if stripList (afterFirst ',' s) = [] then "there".toList
       else stripList (afterFirst ',' s))) ∧
    (',' ∉ s → stripList s ≠ [] → extract_first_name s = stripList s) ∧
    (stripList s = [] → extract_first_name s = "there".toList) := by
  refine ⟨fun h => ?_, fun hnc hne => ?_, fun hnil => ?_⟩
  · have hs : ¬(s = [] ∨ stripList s = []) := by
      rintro (rfl | hstrip)
      · cases h
      · exact stripList_ne_nil_of_comma h hstrip
    unfold extract_first_name
    rw [if_neg hs, if_pos h, split1_snd_eq_afterFirst h]
    rfl
  · have hs : ¬(s = [] ∨ stripList s = []) := by
      rintro (rfl | hstrip)
      · exact hne rfl
      · exact hne hstrip
    unfold extract_first_name
    rw [if_neg hs, if_neg hnc]
  · unfold extract_first_name
    rw [if_pos (Or.inr hnil)]

/-- C4 (witness): the amended claim applied to the spec's worked example
`"Lorenzo Nourafchan, Moshe"`, which yields `"Moshe"`. -/
theorem extract_first_name_spec_witness :
    extract_first_name "Lorenzo Nourafchan, Moshe".toList = "Moshe".toList := by
  have h := (extract_first_name_spec "Lorenzo Nourafchan, Moshe".toList).1 (by decide)
  exact h.trans (by decide)

/-- C10: `extract_first_name` never returns an empty string; in particular the
input `"Smith, "` (a comma followed only by whitespace) yields the fallback
`"there"` rather than an empty first name. -/
theorem extract_first_name_ne_nil :
    (∀ s : Str, extract_first_name s ≠ []) ∧
    extract_first_name "Smith, ".toList = "there".toList := by
  refine ⟨fun s => ?_, by decide⟩
  unfold extract_first_name
  split
  · decide
  · next hguard =>
    split
    · split
      · decide
      · next hfirst => exact hfirst
    · intro hnil
      exact hguard (Or.inr hnil)

/-- C5: `normalize_phone` keeps exactly the digit characters of its input, in
their original order and count (it is the digit filter); the spec's examples
`"+1 347 551-1532" ↦ "13475511532"` and `"" ↦ ""` hold. -/
theorem normalize_phone_spec :
    (∀ s : Str, normalize_phone s = s.filter Char.isDigit) ∧
    normalize_phone "+1 347 551-1532".toList = "13475511532".toList ∧
    normalize_phone [] = [] := by
  refine ⟨fun s => ?_, by decide, rfl⟩
  cases s with
  | nil => rfl
  | cons x xs => simp [normalize_phone]

-- Lemmas for claim C9: the pending-contact fetch.

theorem rowContact_some {idx : Nat} {row : Row} {c : Contact}
    (h : rowContact idx row = some c) :
    c.row_number = idx ∧ c.phone_clean ≠ [] := by
  unfold rowContact at h
  split at h
  · cases h
  · split at h
    · cases h
    · split at h
      · cases h
      · next hpc =>
        injection h with h'
        subst h'
        exact ⟨rfl, hpc⟩

theorem mem_qualifyingRows : ∀ (rows : List Row) (idx : Nat) (c : Contact),
    c ∈ qualifyingRows rows idx → idx ≤ c.row_number ∧ c.phone_clean ≠ [] := by
  intro rows
  induction rows with
  | nil => intro idx c h; cases h
  | cons row rest ih =>
    intro idx c h
    unfold qualifyingRows at h
    cases hr : rowContact idx row with
    | none =>
      rw [hr] at h
      have h2 := ih (idx + 1) c h
      exact ⟨le_trans (Nat.le_succ idx) h2.1, h2.2⟩
    | some c0 =>
      rw [hr] at h
      cases h with
      | head =>
        obtain ⟨h1, h2⟩ := rowContact_some hr
        exact ⟨le_of_eq h1.symm, h2⟩
      | tail _ h' =>
        have h2 := ih (idx + 1) c h'
        exact ⟨le_trans (Nat.le_succ idx) h2.1, h2.2⟩

theorem chain'_qualifyingRows : ∀ (rows : List Row) (idx : Nat),
    List.Chain' (fun a b => a.row_number < b.row_number) (qualifyingRows rows idx) := by
  intro rows
  induction rows with
  | nil => intro idx; simp [qualifyingRows]
  | cons row rest ih =>
    intro idx
    unfold qualifyingRows
    cases hr : rowContact idx row with
    | none => exact ih (idx + 1)
    | some c =>
      refine List.chain'_cons'.mpr ⟨?_, ih (idx + 1)⟩
      intro y hy
      have hym : y ∈ qualifyingRows rest (idx + 1) := List.mem_of_mem_head? hy
      have h1 := (mem_qualifyingRows _ _ _ hym).1
      have h2 := (rowContact_some hr).1
      omega

theorem pendingAux_eq_take (limit : Nat) : ∀ (rows : List Row) (idx cnt : Nat),
    pendingAux limit rows idx cnt = (qualifyingRows rows idx).take (limit - cnt) := by
  intro rows
  induction rows with
  | nil => intro idx cnt; simp [pendingAux, qualifyingRows]
  | cons row rest ih =>
    intro idx cnt
    by_cases hcnt : limit ≤ cnt
    · have h0 : limit - cnt = 0 := by omega
      simp [pendingAux, hcnt, h0]
    · cases hr : rowContact idx row with
      | none =>
        simp only [pendingAux, if_neg hcnt, hr, qualifyingRows]
        exact ih (idx + 1) cnt
      | some c =>
        have hstep : limit - cnt = (limit - (cnt + 1)) + 1 := by omega
        simp only [pendingAux, if_neg hcnt, hr, qualifyingRows]
        rw [hstep, List.take_succ_cons, ih]

/-- C9: for every limit and sheet contents, `get_pending_contacts` returns
exactly the qualifying data rows (empty status, non-blank phone, non-empty
normalized phone) capped at `limit`, in strictly increasing row order, and
every returned contact has a non-empty normalized phone. -/
theorem get_pending_contacts_spec (limit : Nat) (all_rows : List Row) :
    get_pending_contacts limit all_rows =
      (qualifyingRows (all_rows.drop 1) 2).take limit ∧
    (get_pending_contacts limit all_rows).length ≤ limit ∧
    List.Chain' (fun a b => a.row_number < b.row_number)
      (get_pending_contacts limit all_rows) ∧
    ∀ c ∈ get_pending_contacts limit all_rows, c.phone_clean ≠ [] := by
  have heq : get_pending_contacts limit all_rows =
      (qualifyingRows (all_rows.drop 1) 2).take limit := by
    unfold get_pending_contacts
    rw [pendingAux_eq_take]
    simp
  refine ⟨heq, ?_, ?_, ?_⟩
  · rw [heq, List.length_take]
    exact Nat.min_le_left _ _
  · rw [heq]
    exact (chain'_qualifyingRows _ _).take _
  · intro c hc
    rw [heq] at hc
    exact (mem_qualifyingRows _ _ _ (List.take_subset _ _ hc)).2

/-- A concrete four-row sheet used to witness C9: a header, one qualifying row,
one row already marked sent, and one row with a blank phone. -/
def sampleSheet : List Row :=
  [["Status".toList, "ID".toList, "Sort Name".toList, "Phone".toList],
   [[], "1".toList, "Lauren, David".toList, "+1 347 551-1532".toList],
   ["1".toList, "2".toList, "X, Y".toList, "+1 222".toList],
   [[], "3".toList, "Solo".toList, "  ".toList]]

/-- C9 (witness): the spec theorem evaluated on `sampleSheet`, whose single
qualifying contact (sheet row 2) has the non-empty normalized phone
`"13475511532"`. -/
theorem get_pending_contacts_spec_witness :
    (get_pending_contacts 5 sampleSheet).length ≤ 5 ∧
    ({row_number := 2, sort_name := "Lauren, David".toList,
      first_name := "David".toList, phone_raw := "+1 347 551-1532".toList,
      phone_clean := "13475511532".toList} : Contact).phone_clean ≠ [] := by
  have h := get_pending_contacts_spec 5 sampleSheet
  exact ⟨h.2.1, h.2.2.2 _ (by decide)⟩

-- Embedding of whatsapp_sender.py: the selector registry and the fallback
-- resolvers (claim C2).

/-- Selenium locator strategies used by the source (`By.CSS_SELECTOR`,
`By.XPATH`). -/
inductive By where
  | css
  | xpath
deriving DecidableEq, Repr

/-- Embeds the `SELECTORS` registry of `whatsapp_sender.py`: each logical
target name maps to its ordered list of locator alternatives. -/
def SELECTORS : List (Str × List (By × Str)) :=
  [("message_input".toList,
    [(By.css, "div[contenteditable=\"true\"][data-tab=\"10\"]".toList),
     (By.css, "div[contenteditable=\"true\"][title=\"Type a message\"]".toList),
     (By.css, "footer div[contenteditable=\"true\"]".toList)]),
   ("attach_button".toList,
    [(By.css, "span[data-icon=\"plus-rounded\"]".toList),
     (By.css, "div[title=\"Attach\"]".toList),
     (By.css, "span[data-icon=\"plus\"]".toList),
     (By.css, "span[data-icon=\"attach-menu-plus\"]".toList),
     (By.css, "div[aria-label=\"Attach\"]".toList)]),
   ("image_input".toList,
    [(By.css, "input[accept=\"image/*,video/mp4,video/3gpp,video/quicktime\"]".toList),
     (By.css, "input[accept*=\"image/*\"]".toList),
     (By.xpath, "//input[@type=\"file\" and contains(@accept, \"image\")]".toList)]),
   ("caption_input".toList,
    [(By.css, "div[contenteditable=\"true\"][data-tab=\"undefined\"]".toList),
     (By.xpath, "//div[@contenteditable=\"true\" and @data-tab=\"undefined\" and @role=\"textbox\"]".toList),
     (By.xpath, "//div[@contenteditable=\"true\" and contains(@aria-placeholder, \"caption\")]".toList),
     (By.xpath, "//div[@contenteditable=\"true\" and contains(@aria-placeholder, \"Add a\")]".toList)]),
   ("send_button".toList,
    [(By.css, "span[data-icon=\"wds-ic-send-filled\"]".toList),
     (By.css, "div[aria-label=\"Send\"]".toList),
     (By.css, "span[data-icon=\"send\"]".toList),
     (By.css, "div[role=\"button\"][aria-label=\"Send\"]".toList)]),
   ("invalid_phone_popup".toList,
    [(By.xpath, "//*[contains(text(), \"Phone number shared via url is invalid\")]".toList),
     (By.xpath, "//*[contains(text(), \"phone number shared via url is invalid\")]".toList)]),
   ("popup_ok_button".toList,
    [(By.xpath, "//div[@role=\"button\" and .//div[text()=\"OK\"]]".toList),
     (By.xpath, "//div[contains(@class, \"popup\")]//div[@role=\"button\"]".toList)]),
   ("continue_to_chat".toList,
    [(By.xpath, "//div[@role=\"button\" and .//div[text()=\"Continue to Chat\"]]".toList),
     (By.xpath, "//*[contains(text(), \"Continue to Chat\")]".toList)]),
   ("photos_and_videos".toList,
    [(By.css, "div[aria-label=\"Photos & videos\"]".toList),
     (By.xpath, "//div[@role=\"listitem\" and .//span[text()=\"Photos & videos\"]]".toList),
     (By.xpath, "//*[contains(text(), \"Photos & videos\")]".toList)])]

/-- The registry lookup `SELECTORS[selector_key]` (callers only use registered
keys, so the unregistered-key default never fires in the modelled runs). -/
def getSelectors (key : Str) : List (By × Str) :=
  match SELECTORS.lookup key with
  | some sels => sels
  | none => []

/-- Outcome of one bounded `WebDriverWait` on one locator: the resolved element
or a timeout carrying the wait error.  The element type `E` is abstract. -/
inductive WaitOutcome (E : Type) where
  | found (elem : E)
  | timedOut (err : Str)
deriving DecidableEq, Repr

/-- The timeout message of a wait outcome, `none` when the wait succeeded. -/
def timeoutMsg {E : Type} : WaitOutcome E → Option Str
  | .found _ => none
  | .timedOut m => some m

/-- Embeds the `TimeoutException` raised by the fallback resolvers when no
selector matched: it carries the logical target name and the last underlying
wait error. -/
structure ElementNotFound where
  key : Str
  last_error : Option Str
deriving DecidableEq, Repr

/-- The shared loop of `find_element_with_fallbacks` and
`find_clickable_with_fallbacks`: try each locator in order with `resolve`
(the bounded wait), remember the last timeout error, and also return the list
of locators actually attempted, in order. -/
def findFallbackAux {E : Type} (resolve : By × Str → WaitOutcome E) (key : Str) :
    List (By × Str) → Option Str → List (By × Str) →
    Except ElementNotFound E × List (By × Str)
  | [], last, tried => (.error ⟨key, last⟩, tried.reverse)
  | sel :: rest, last, tried =>
    match resolve sel with
    | .found e => (.ok e, (sel :: tried).reverse)
    | .timedOut err => findFallbackAux resolve key rest (some err) (sel :: tried)

/-- Embeds `whatsapp_sender.find_element_with_fallbacks`; `presenceWait` is the
oracle for `WebDriverWait(..).until(EC.presence_of_element_located(..))` within
the per-locator bound. -/
def find_element_with_fallbacks {E : Type}
    (presenceWait : By × Str → WaitOutcome E) (key : Str) :
    Except ElementNotFound E × List (By × Str) :=
  findFallbackAux presenceWait key (getSelectors key) none []

/-- Embeds `whatsapp_sender.find_clickable_with_fallbacks`; `clickableWait` is
the oracle for `WebDriverWait(..).until(EC.element_to_be_clickable(..))` within
the per-locator bound. -/
def find_clickable_with_fallbacks {E : Type}
    (clickableWait : By × Str → WaitOutcome E) (key : Str) :
    Except ElementNotFound E × List (By × Str) :=
  findFallbackAux clickableWait key (getSelectors key) none []

theorem findFallbackAux_all_timeout {E : Type}
    (resolve : By × Str → WaitOutcome E) (key : Str) :
    ∀ (sels : List (By × Str)) (last : Option Str) (tried : List (By × Str)),
    (∀ sel ∈ sels, (timeoutMsg (resolve sel)).isSome) →
    findFallbackAux resolve key sels last tried =
      (.error ⟨key, (sels.getLast?.map fun sel => timeoutMsg (resolve sel)).getD last⟩,
       tried.reverse ++ sels) := by
  intro sels
  induction sels with
  | nil => intro last tried _; simp [findFallbackAux]
  | cons sel rest ih =>
    intro last tried hall
    have hsel := hall sel (List.mem_cons_self _ _)
    cases hres : resolve sel with
    | found e => rw [hres] at hsel; simp [timeoutMsg] at hsel
    | timedOut m =>
      simp only [findFallbackAux, hres]
      rw [ih (some m) (sel :: tried) (fun s hs => hall s (List.mem_cons_of_mem _ hs))]
      cases rest with
      | nil => simp [hres, timeoutMsg]
      | cons r rs =>
        simp only [List.getLast?_cons_cons, List.reverse_cons]
        congr 1
        simp

theorem findFallbackAux_first_found {E : Type}
    (resolve : By × Str → WaitOutcome E) (key : Str) :
    ∀ (pre : List (By × Str)) (sel : By × Str) (e : E) (post : List (By × Str))
      (last : Option Str) (tried : List (By × Str)),
    (∀ s ∈ pre, (timeoutMsg (resolve s)).isSome) →
    resolve sel = .found e →
    findFallbackAux resolve key (pre ++ sel :: post) last tried =
      (.ok e, tried.reverse ++ pre ++ [sel]) := by
  intro pre
  induction pre with
  | nil =>
    intro sel e post last tried _ hfound
    simp [findFallbackAux, hfound]
  | cons p ps ih =>
    intro sel e post last tried hall hfound
    have hp := hall p (List.mem_cons_self _ _)
    cases hres : resolve p with
    | found e0 => rw [hres] at hp; simp [timeoutMsg] at hp
    | timedOut m =>
      simp only [List.cons_append, findFallbackAux, hres, List.append_eq]
      rw [ih sel e post (some m) (p :: tried)
        (fun s hs => hall s (List.mem_cons_of_mem _ hs)) hfound]
      simp

/-- C2: both fallback resolvers attempt the registered locators of the target
in declared order; they return the first element whose bounded wait (presence,
resp. clickability) succeeds, having attempted exactly the locators up to it;
and when every locator's wait times out they fail with an error carrying the
target name and the last underlying wait error, having attempted all locators. -/
theorem find_with_fallbacks_spec (E : Type)
    (presenceWait clickableWait : By × Str → WaitOutcome E) (key : Str) :
    (∀ (pre : List (By × Str)) (sel : By × Str) (e : E) (post : List (By × Str)),
      getSelectors key = pre ++ sel :: post →
      (∀ s ∈ pre, (timeoutMsg (presenceWait s)).isSome) →
      presenceWait sel = .found e →
      find_element_with_fallbacks presenceWait key = (.ok e, pre ++ [sel])) ∧
    ((∀ sel ∈ getSelectors key, (timeoutMsg (presenceWait sel)).isSome) →
      find_element_with_fallbacks presenceWait key =
        (.error ⟨key, ((getSelectors key).getLast?.map
            fun sel => timeoutMsg (presenceWait sel)).getD none⟩,
         getSelectors key)) ∧
    (∀ (pre : List (By × Str)) (sel : By × Str) (e : E) (post : List (By × Str)),
      getSelectors key = pre ++ sel :: post →
      (∀ s ∈ pre, (timeoutMsg (clickableWait s)).isSome) →
      clickableWait sel = .found e →
      find_clickable_with_fallbacks clickableWait key = (.ok e, pre ++ [sel])) ∧
    ((∀ sel ∈ getSelectors key, (timeoutMsg (clickableWait sel)).isSome) →
      find_clickable_with_fallbacks clickableWait key =
        (.error ⟨key, ((getSelectors key).getLast?.map
            fun sel => timeoutMsg (clickableWait sel)).getD none⟩,
         getSelectors key)) := by
  refine ⟨fun pre sel e post hsplit hall hfound => ?_,
          fun hall => ?_,
          fun pre sel e post hsplit hall hfound => ?_,
          fun hall => ?_⟩
  · unfold find_element_with_fallbacks
    rw [hsplit, findFallbackAux_first_found presenceWait key pre sel e post none [] hall hfound]
    simp
  · unfold find_element_with_fallbacks
    rw [findFallbackAux_all_timeout presenceWait key _ none [] hall]
    simp
  · unfold find_clickable_with_fallbacks
    rw [hsplit, findFallbackAux_first_found clickableWait key pre sel e post none [] hall hfound]
    simp
  · unfold find_clickable_with_fallbacks
    rw [findFallbackAux_all_timeout clickableWait key _ none [] hall]
    simp

/-- C2 (witness): on target `"popup_ok_button"`, an oracle on which every
presence wait times out with `"boom"` produces the error carrying the target
name and `"boom"` after attempting both locators, while a clickability oracle
that resolves the first locator returns that element having attempted only it. -/
theorem find_with_fallbacks_spec_witness :
    find_element_with_fallbacks (E := Nat) (fun _ => .timedOut "boom".toList)
        "popup_ok_button".toList =
      (.error ⟨"popup_ok_button".toList, some "boom".toList⟩,
       getSelectors "popup_ok_button".toList) ∧
    find_clickable_with_fallbacks (E := Nat) (fun _ => .found 7)
        "popup_ok_button".toList =
      (.ok 7, [(By.xpath,
        "//div[@role=\"button\" and .//div[text()=\"OK\"]]".toList)]) := by
  have h := find_with_fallbacks_spec Nat (fun _ => .timedOut "boom".toList)
    (fun _ => .found 7) "popup_ok_button".toList
  constructor
  · have h2 := h.2.1 (fun sel _ => by simp [timeoutMsg])
    exact h2.trans (by rfl)
  · have h3 := h.2.2.1 []
      (By.xpath, "//div[@role=\"button\" and .//div[text()=\"OK\"]]".toList) 7
      [(By.xpath, "//div[contains(@class, \"popup\")]//div[@role=\"button\"]".toList)]
      (by decide) (by simp) rfl
    simpa using h3

-- Embedding of whatsapp_sender.ensure_chrome_ready (claim C7).

/-- Decimal rendering of a natural number, for the f-string pieces of the
launch command and error message. -/
def natStr (n : Nat) : Str := (Nat.repr n).toList

/-- The hard-coded Windows Chrome path used when neither the argument nor the
`CHROME_PATH` environment variable is set. -/
def defaultChromePath : Str :=
  "C:\\Program Files\\Google\\Chrome\\Application\\chrome.exe".toList

/-- The dedicated automation profile directory default,
`<project>/.tmp/chrome-whatsapp` (shown relative to the project root). -/
def defaultProfileDir : Str := ".tmp/chrome-whatsapp".toList

/-- The `subprocess.Popen` command list built by `ensure_chrome_ready`. -/
def launchCmd (chrome_path : Str) (debug_port : Nat) (profile_dir : Str) :
    List Str :=
  [chrome_path,
   "--remote-debugging-port=".toList ++ natStr debug_port,
   "--user-data-dir=".toList ++ profile_dir,
   "--no-first-run".toList,
   "--no-default-browser-check".toList]

/-- The message of the `RuntimeError` (the spec's `ConnectorError`) raised when
the debugging port never becomes reachable. -/
def connectorError (debug_port launch_timeout : Nat) : Str :=
  "Chrome did not start with remote-debugging on port ".toList ++
    natStr debug_port ++ " within ".toList ++ natStr launch_timeout ++
    "s.  Check CHROME_PATH in .env.".toList

/-- The post-launch poll loop: probe `portOpen` at check times `t, t+1, ...`
(each check 0.5 s after the previous one), at most `budget` times, returning
the index of the first successful check. -/
def chromePoll (portOpen : Nat → Bool) : Nat → Nat → Option Nat
  | 0, _ => none
  | budget + 1, t => if portOpen t then some t else chromePoll portOpen budget (t + 1)

/-- Observable outcome of `ensure_chrome_ready`: the launch command when a
browser process was spawned, and success or the connector error. -/
structure ChromeOutcome where
  launched : Option (List Str)
  result : Except Str Unit
deriving Repr

/-- Embeds `whatsapp_sender.ensure_chrome_ready`.  `portOpen k` is the oracle
for the k-th `_is_port_open` probe (a single unretried TCP connection
attempt): check 0 is the initial probe, checks 1.. are the post-launch polls
at 0.5 s intervals (`range(launch_timeout * 2)`).  The environment variable
`CHROME_PATH` is passed as `env_chrome_path`. -/
def ensure_chrome_ready (debug_port : Nat) (chrome_path : Option Str)
    (env_chrome_path : Option Str) (profile_dir : Option Str)
    (launch_timeout : Nat) (portOpen : Nat → Bool) : ChromeOutcome :=
  if portOpen 0 then ⟨none, .ok ()⟩
  else
    let cmd := launchCmd (chrome_path.getD (env_chrome_path.getD defaultChromePath))
      debug_port (profile_dir.getD defaultProfileDir)
    match chromePoll portOpen (launch_timeout * 2) 1 with
    | some _ => ⟨some cmd, .ok ()⟩
    | none => ⟨some cmd, .error (connectorError debug_port launch_timeout)⟩

theorem chromePoll_eq_none (portOpen : Nat → Bool) :
    ∀ (budget t : Nat), (∀ k, t ≤ k → k < t + budget → portOpen k = false) →
    chromePoll portOpen budget t = none := by
  intro budget
  induction budget with
  | zero => intro t _; rfl
  | succ b ih =>
    intro t hall
    have ht : portOpen t = false := hall t le_rfl (by omega)
    simp only [chromePoll, ht, if_false, Bool.false_eq_true]
    exact ih (t + 1) fun k hk1 hk2 => hall k (by omega) (by omega)

theorem chromePoll_isSome (portOpen : Nat → Bool) :
    ∀ (budget t : Nat), (∃ k, t ≤ k ∧ k < t + budget ∧ portOpen k = true) →
    (chromePoll portOpen budget t).isSome := by
  intro budget
  induction budget with
  | zero => intro t ⟨k, hk1, hk2, _⟩; omega
  | succ b ih =>
    intro t ⟨k, hk1, hk2, hk3⟩
    by_cases ht : portOpen t = true
    · simp [chromePoll, ht]
    · have hkt : k ≠ t := fun he => ht (he ▸ hk3)
      simp only [chromePoll, ht, if_false, Bool.false_eq_true]
      exact ih (t + 1) ⟨k, by omega, by omega, hk3⟩

/-- C7: when the single initial port probe succeeds, `ensure_chrome_ready`
attaches without launching anything; when it fails, a browser process is
launched with remote debugging on the requested port and a dedicated profile
directory (defaulting to the project's `.tmp/chrome-whatsapp`, not the user's
default profile), after which the port is polled at 0.5 s intervals at most
`launch_timeout * 2` times: if some poll within that budget finds the port
open the call succeeds, and if none does it fails with the connector error. -/
theorem ensure_chrome_ready_spec (debug_port : Nat)
    (chrome_path env_chrome_path profile_dir : Option Str)
    (launch_timeout : Nat) (portOpen : Nat → Bool) :
    (portOpen 0 = true →
      ensure_chrome_ready debug_port chrome_path env_chrome_path profile_dir
        launch_timeout portOpen = ⟨none, .ok ()⟩) ∧
    (portOpen 0 = false →
      (ensure_chrome_ready debug_port chrome_path env_chrome_path profile_dir
          launch_timeout portOpen).launched =
        some (launchCmd (chrome_path.getD (env_chrome_path.getD defaultChromePath))
          debug_port (profile_dir.getD defaultProfileDir)) ∧
      ("--remote-debugging-port=".toList ++ natStr debug_port) ∈
        launchCmd (chrome_path.getD (env_chrome_path.getD defaultChromePath))
          debug_port (profile_dir.getD defaultProfileDir) ∧
      ("--user-data-dir=".toList ++ profile_dir.getD defaultProfileDir) ∈
        launchCmd (chrome_path.getD (env_chrome_path.getD defaultChromePath))
          debug_port (profile_dir.getD defaultProfileDir) ∧
      ((∃ k, 1 ≤ k ∧ k ≤ launch_timeout * 2 ∧ portOpen k = true) →
        (ensure_chrome_ready debug_port chrome_path env_chrome_path profile_dir
          launch_timeout portOpen).result = .ok ()) ∧
      ((∀ k, 1 ≤ k → k ≤ launch_timeout * 2 → portOpen k = false) →
        (ensure_chrome_ready debug_port chrome_path env_chrome_path profile_dir
          launch_timeout portOpen).result =
          .error (connectorError debug_port launch_timeout))) := by
  constructor
  · intro h0
    unfold ensure_chrome_ready
    rw [if_pos h0]
  · intro h0
    refine ⟨?_, ?_, ?_, ?_, ?_⟩
    · unfold ensure_chrome_ready
      rw [if_neg (by simp [h0])]
      cases hpoll : chromePoll portOpen (launch_timeout * 2) 1 <;> rfl
    · simp [launchCmd]
    · simp [launchCmd]
    · intro ⟨k, hk1, hk2, hk3⟩
      have hsome := chromePoll_isSome portOpen (launch_timeout * 2) 1
        ⟨k, hk1, by omega, hk3⟩
      unfold ensure_chrome_ready
      rw [if_neg (by simp [h0])]
      cases hpoll : chromePoll portOpen (launch_timeout * 2) 1 with
      | none => rw [hpoll] at hsome; cases hsome
      | some j => rfl
    · intro hall
      have hnone := chromePoll_eq_none portOpen (launch_timeout * 2) 1
        fun k hk1 hk2 => hall k hk1 (by omega)
      unfold ensure_chrome_ready
      rw [if_neg (by simp [h0])]
      rw [hnone]

/-- C7 (witness): with a port oracle that is closed on the initial probe and
opens at the second poll, `ensure_chrome_ready` launches Chrome (with the
remote-debugging flag for port 9222 in the command) and succeeds within the
15-second launch timeout. -/
theorem ensure_chrome_ready_spec_witness :
    (ensure_chrome_ready 9222 none none none 15 (fun k => decide (k = 2))).result =
      .ok () ∧
    ("--remote-debugging-port=".toList ++ natStr 9222) ∈
      launchCmd defaultChromePath 9222 defaultProfileDir := by
  have h := (ensure_chrome_ready_spec 9222 none none none 15
    (fun k => decide (k = 2))).2 (by decide)
  exact ⟨h.2.2.2.1 ⟨2, by omega, by omega, by decide⟩, h.2.1⟩

-- Embedding of send_messages.py: the send-loop orchestrator
-- (claims C1, C3, C6, C8).

/-- Outcome of one `send_whatsapp_message` invocation, as the orchestrator's
try/except distinguishes them: success, the three typed delivery failures
(`ContactNotFoundError`, `SendTimeoutError`, other `WhatsAppSendError`), or a
fully unexpected exception; the latter carries the `is_whatsapp_connected`
probe result the handler then makes. -/
inductive Outcome where
  | success
  | contactNotFound (msg : Str)
  | sendTimeout (msg : Str)
  | whatsAppError (msg : Str)
  | unexpected (msg : Str) (connected : Bool)
deriving DecidableEq, Repr

/-- Whether the delivery attempt succeeded. -/
def Outcome.isSuccess : Outcome → Bool
  | .success => true
  | _ => false

/-- One `_log` call of `send_messages.py`, one constructor per call site (the
wall-clock timestamp prefix is not modelled). -/
inductive LogEntry where
  | imageNotFound (path : Str)
  | launchingChrome
  | connectedChrome
  | openingWhatsAppTab
  | whatsappActive
  | fetchingContacts (count : Nat)
  | noPendingContacts
  | fewerContacts (actual requested : Nat)
  | startingSend (actual : Nat)
  | stopRequested
  | sending (pos total : Nat) (name phone : Str)
  | sentOk (name : Str)
  | failedNotFound (phone : Str)
  | failedSend (err : Str)
  | unexpectedError (err : Str)
  | disconnectedStopping
  | waiting (delaySecs : ℚ)
  | criticalError (err : Str)
  | sessionComplete (sent failed : Nat)
deriving DecidableEq, Repr

/-- Embeds the `SendResult` dataclass (its wall-clock timestamp is not
modelled). -/
structure SendResult where
  contact : Contact
  success : Bool
  error : Option Str := none
deriving DecidableEq, Repr

/-- Embeds the `SessionState` dataclass shared with the dashboard.  The
`is_paused` and `should_stop` fields are written only by the control surface;
the loop's reads of `should_stop` are supplied by the per-iteration
environment (`IterEnv`) because another thread may change the flag at any
time, and the pause busy-wait only consumes time, which is not modelled. -/
structure SessionState where
  total : Nat := 0
  sent : Nat := 0
  failed : Nat := 0
  remaining : Nat := 0
  current_contact : Option Str := none
  current_phone : Option Str := none
  is_running : Bool := false
  is_paused : Bool := false
  should_stop : Bool := false
  log_messages : List LogEntry := []
  results : List SendResult := []
deriving DecidableEq, Repr

/-- Embeds the JSON object `_save_log` writes to `.tmp/send_log.json` (its
wall-clock timestamp is not modelled). -/
structure SavedLog where
  sent : Nat
  failed : Nat
  total_attempted : Nat
  log : List LogEntry
  results : List SendResult
deriving DecidableEq, Repr

/-- The orchestrator's in-flight data: the shared state, the local `results`
list, and the observable traces — `write_status` calls and
`send_whatsapp_message` invocations (phone sent to, with the outcome). -/
structure LoopAcc where
  st : SessionState
  results : List SendResult := []
  writes : List WriteEvent := []
  attempts : List (Str × Outcome) := []
deriving DecidableEq, Repr

/-- Everything observable about one `run_send_loop` execution: the final
shared state, the returned results, the write-back and delivery traces, and
the persisted log (`none` when `_save_log` never ran). -/
structure RunOutput where
  state : SessionState
  retval : List SendResult
  writes : List WriteEvent
  attempts : List (Str × Outcome)
  savedLog : Option SavedLog
deriving DecidableEq, Repr

/-- Environment of one loop iteration: the `should_stop` value read at the top
of the loop, whether the caption formatting raised (it sits outside the
per-contact try, so it propagates to the outer handler), the delivery outcome,
the `should_stop` value read when deciding the inter-message delay, and the
`random.uniform(-5, 10)` sample. -/
structure IterEnv where
  stopAtTop : Bool := false
  fatal : Option Str := none
  outcome : Outcome := .success
  stopAfter : Bool := false
  jitter : ℚ := 0
deriving Repr

/-- Environment of one run: the `DAILY_MESSAGE_LIMIT` value, the image path
and its existence check, the setup phase (`create_driver` through
`get_pending_contacts`) as either a raised exception caught by the outer
handler or the fetched contact list, whether a WhatsApp tab was already open
(affects only the log), and the per-iteration environments. -/
structure RunEnv where
  daily_limit : Nat := 45
  image_path : Str := []
  image_exists : Bool := true
  setup : Except Str (List Contact) := .ok []
  tabFound : Bool := true
  iter : Nat → IterEnv := fun _ => {}

/-- Appends one log entry (`_log` without the timestamp formatting). -/
def logAdd (st : SessionState) (e : LogEntry) : SessionState :=
  {st with log_messages := st.log_messages ++ [e]}

/-- Lines 174-179 of `send_messages.py`: set the current-target fields and log
the `Sending to ...` line (`i` is 0-based, as in the source's `enumerate`). -/
def beginContact (c : Contact) (i total : Nat) (a : LoopAcc) : LoopAcc :=
  let st1 := {a.st with current_contact := some c.first_name, current_phone := some c.phone_raw}
  {a with st := logAdd st1 (.sending (i + 1) total c.first_name c.phone_raw)}

/-- Lines 215-217 of `send_messages.py`, common to all non-breaking branches:
append the result to the local list and the shared state, and decrement
`remaining` (the `on_progress` callback is observation-only). -/
def finishIter (c : Contact) (succ : Bool) (err : Option Str) (a : LoopAcc) :
    LoopAcc :=
  let st1 := {a.st with results := a.st.results ++ [⟨c, succ, err⟩], remaining := a.st.remaining - 1}
  {a with results := a.results ++ [⟨c, succ, err⟩], st := st1}

/-- Lines 181-217 of `send_messages.py`: one delivery attempt and its
try/except handling.  Returns the updated accumulator and whether the loop
broke out (`True` exactly when an unexpected exception coincided with a lost
WhatsApp connection; in that case the result is not appended, matching the
`break` before `results.append`).  `write_status` is the external Sheets
write, modelled as always succeeding and recorded in the write trace. -/
def attemptContact (c : Contact) (o : Outcome) (a0 : LoopAcc) : LoopAcc × Bool :=
  let a := {a0 with attempts := a0.attempts ++ [(c.phone_clean, o)]}
  match o with
  | .success =>
    (finishIter c true none
      {a with writes := a.writes ++ [(c.row_number, true)],
              st := logAdd {a.st with sent := a.st.sent + 1} (.sentOk c.first_name)},
     false)
  | .contactNotFound m =>
    (finishIter c false (some m)
      {a with writes := a.writes ++ [(c.row_number, false)],
              st := logAdd {a.st with failed := a.st.failed + 1}
                (.failedNotFound c.phone_raw)},
     false)
  | .sendTimeout m =>
    (finishIter c false (some m)
      {a with writes := a.writes ++ [(c.row_number, false)],
              st := logAdd {a.st with failed := a.st.failed + 1} (.failedSend m)},
     false)
  | .whatsAppError m =>
    (finishIter c false (some m)
      {a with writes := a.writes ++ [(c.row_number, false)],
              st := logAdd {a.st with failed := a.st.failed + 1} (.failedSend m)},
     false)
  | .unexpected m connected =>
    let a1 := {a with st := logAdd {a.st with failed := a.st.failed + 1} (.unexpectedError m)}
    if connected then (finishIter c false (some m) a1, false)
    else ({a1 with st := logAdd a1.st .disconnectedStopping}, true)

/-- The `max(20, delay + jitter)` inter-message delay of line 225. -/
def actualDelay (delay : ℤ) (jitter : ℚ) : ℚ := max 20 ((delay : ℚ) + jitter)

/-- The main `for i, contact in enumerate(contacts)` loop (lines 164-230).
The pause busy-wait is omitted: it changes no modelled state and only
consumes time.  A `fatal` iteration aborts to the outer handler with its
message; the inter-message delay itself changes no state beyond its log line
(its timing is modelled separately by `delayWait`). -/
def sendLoop (env : RunEnv) (delay : ℤ) (total : Nat) :
    List Contact → Nat → LoopAcc → LoopAcc × Option Str
  | [], _, a => (a, none)
  | c :: rest, i, a =>
    if (env.iter i).stopAtTop then
      ({a with st := logAdd a.st .stopRequested}, none)
    else
      let a1 := beginContact c i total a
      match (env.iter i).fatal with
      | some m => (a1, some m)
      | none =>
        let r := attemptContact c (env.iter i).outcome a1
        if r.2 then (r.1, none)
        else
          let a3 := if i < total - 1 ∧ (env.iter i).stopAfter = false then
              {r.1 with st := logAdd r.1.st (.waiting (actualDelay delay (env.iter i).jitter))}
            else r.1
          sendLoop env delay total rest (i + 1) a3

/-- Lines 102-109 of `send_messages.py`: default a missing state, set the
running flag and the requested totals. -/
def mkInitialState (count : Nat) (state0 : Option SessionState) : SessionState :=
  let st := state0.getD {}
  {st with is_running := true, total := count, remaining := count}

/-- The `finally` block (lines 235-240): clear the running flag and the
current-target fields, persist the run log via `_save_log` (which snapshots
the counters, the message log so far, and the serialized results), then log
the final summary line. -/
def finishRun (a : LoopAcc) : RunOutput :=
  let stF := {a.st with is_running := false, current_contact := none, current_phone := none}
  ⟨logAdd stF (.sessionComplete stF.sent stF.failed), a.results, a.writes,
   a.attempts,
   some ⟨stF.sent, stF.failed, stF.sent + stF.failed, stF.log_messages, a.results⟩⟩

/-- Lines 129-147 of `send_messages.py`: the log lines after a successful
`create_driver`, through finding (or opening) the WhatsApp tab, up to the
`Fetching ... pending contacts` line. -/
def setupLog (env : RunEnv) (count : Nat) (st2 : SessionState) : SessionState :=
  let st3 := logAdd st2 .connectedChrome
  let st3 := if env.tabFound then st3 else logAdd st3 .openingWhatsAppTab
  logAdd (logAdd st3 .whatsappActive) (.fetchingContacts count)

/-- Lines 156-161 of `send_messages.py`: the found-fewer warning, the
`Starting to send` line, and the reset of `total`/`remaining` to the actual
contact count. -/
def startLog (count : Nat) (contacts : List Contact) (st3 : SessionState) :
    SessionState :=
  let st4 := if contacts.length < count then
      logAdd st3 (.fewerContacts contacts.length count)
    else st3
  let st5 := logAdd st4 (.startingSend contacts.length)
  {st5 with total := contacts.length, remaining := contacts.length}

/-- The whole `try`/`except` region of `run_send_loop` (lines 122-233): setup,
the zero-pending early return, the main loop, and the outer handler's
`CRITICAL ERROR` log.  Returns the accumulator as it stands when control
reaches the `finally` block. -/
def tryBody (env : RunEnv) (delay : ℤ) (count : Nat) (st1 : SessionState) :
    LoopAcc :=
  let st2 := logAdd st1 .launchingChrome
  match env.setup with
  | .error m => ⟨logAdd st2 (.criticalError m), [], [], []⟩
  | .ok contacts =>
    if contacts.length = 0 then
      ⟨{logAdd (setupLog env count st2) .noPendingContacts with is_running := false},
       [], [], []⟩
    else
      let r := sendLoop env delay contacts.length contacts 0
        ⟨startLog count contacts (setupLog env count st2), [], [], []⟩
      match r.2 with
      | some m => {r.1 with st := logAdd r.1.st (.criticalError m)}
      | none => r.1

/-- Embeds `send_messages.run_send_loop`.  The requested count is capped at
`DAILY_MESSAGE_LIMIT`; a missing image returns early (before the try/finally,
so nothing is persisted); otherwise the try/except region runs and the finally
block (`finishRun`) always executes. -/
def run_send_loop (env : RunEnv) (count0 : Nat) (delay : ℤ)
    (state0 : Option SessionState) : RunOutput :=
  let count := min count0 env.daily_limit
  let st1 := mkInitialState count state0
  if env.image_exists = false then
    ⟨{logAdd st1 (.imageNotFound env.image_path) with is_running := false},
     [], [], [], none⟩
  else finishRun (tryBody env delay count st1)

/-- The interruptible inter-message wait (lines 227-230): `budget` one-second
sleeps remain, `t` one-second sleeps have elapsed; `stop t` is the
`should_stop` value read before the sleep at elapsed time `t`.  Returns the
number of one-second sleeps actually performed. -/
def delayWait (stop : Nat → Bool) : Nat → Nat → Nat
  | 0, _ => 0
  | budget + 1, t => if stop t then 0 else delayWait stop budget (t + 1) + 1

/-- Python `int()` on the non-negative `actual_delay` (truncation = floor). -/
def pyInt (q : ℚ) : Nat := q.floor.toNat

-- Trace lemmas for the orchestrator.

theorem attemptContact_trace (c : Contact) (o : Outcome) (a : LoopAcc) :
    (attemptContact c o a).1.attempts = a.attempts ++ [(c.phone_clean, o)] ∧
    (o.isSuccess = true →
      (attemptContact c o a).1.st.sent = a.st.sent + 1 ∧
      (attemptContact c o a).1.st.failed = a.st.failed) ∧
    (o.isSuccess = false →
      (attemptContact c o a).1.st.failed = a.st.failed + 1 ∧
      (attemptContact c o a).1.st.sent = a.st.sent) := by
  cases o with
  | success => simp [attemptContact, finishIter, logAdd, Outcome.isSuccess]
  | contactNotFound m => simp [attemptContact, finishIter, logAdd, Outcome.isSuccess]
  | sendTimeout m => simp [attemptContact, finishIter, logAdd, Outcome.isSuccess]
  | whatsAppError m => simp [attemptContact, finishIter, logAdd, Outcome.isSuccess]
  | unexpected m connected =>
    cases connected <;>
      simp [attemptContact, finishIter, logAdd, Outcome.isSuccess]

theorem beginContact_trace (c : Contact) (i total : Nat) (a : LoopAcc) :
    (beginContact c i total a).attempts = a.attempts ∧
    (beginContact c i total a).st.sent = a.st.sent ∧
    (beginContact c i total a).st.failed = a.st.failed := by
  simp [beginContact, logAdd]

theorem length_filter_add_length_filter_neg {α : Type} (l : List α) (p : α → Bool) :
    (l.filter p).length + (l.filter fun x => !p x).length = l.length := by
  induction l with
  | nil => rfl
  | cons x xs ih =>
    by_cases hx : p x = true <;> simp [List.filter_cons, hx] <;> omega

theorem sendLoop_trace (env : RunEnv) (delay : ℤ) (total : Nat) :
    ∀ (cs : List Contact) (i : Nat) (a : LoopAcc),
    ∃ new : List (Str × Outcome),
      (sendLoop env delay total cs i a).1.attempts = a.attempts ++ new ∧
      (sendLoop env delay total cs i a).1.st.sent =
        a.st.sent + (new.filter fun p => p.2.isSuccess).length ∧
      (sendLoop env delay total cs i a).1.st.failed =
        a.st.failed + (new.filter fun p => !p.2.isSuccess).length := by
  intro cs
  induction cs with
  | nil =>
    intro i a
    exact ⟨[], by simp [sendLoop], by simp [sendLoop], by simp [sendLoop]⟩
  | cons c rest ih =>
    intro i a
    by_cases hstop : (env.iter i).stopAtTop = true
    · refine ⟨[], ?_, ?_, ?_⟩ <;> simp [sendLoop, hstop, logAdd]
    · rw [Bool.not_eq_true] at hstop
      cases hfatal : (env.iter i).fatal with
      | some m =>
        refine ⟨[], ?_, ?_, ?_⟩ <;>
          simp [sendLoop, hstop, hfatal, beginContact, logAdd]
      | none =>
        have ha1 := beginContact_trace c i total a
        have hat := attemptContact_trace c (env.iter i).outcome (beginContact c i total a)
        cases hbroke : (attemptContact c (env.iter i).outcome (beginContact c i total a)).2 with
        | true =>
          refine ⟨[(c.phone_clean, (env.iter i).outcome)], ?_, ?_, ?_⟩ <;>
            rw [sendLoop] <;>
            simp only [hstop, Bool.false_eq_true, if_false, hfatal, hbroke, if_true]
          · rw [hat.1, ha1.1]
          · cases hsucc : (env.iter i).outcome.isSuccess
            · have h2 := hat.2.2 hsucc
              rw [h2.2, ha1.2.1]
              simp [List.filter_cons, hsucc]
            · have h2 := hat.2.1 hsucc
              rw [h2.1, ha1.2.1]
              simp [List.filter_cons, hsucc]
          · cases hsucc : (env.iter i).outcome.isSuccess
            · have h2 := hat.2.2 hsucc
              rw [h2.1, ha1.2.2]
              simp [List.filter_cons, hsucc]
            · have h2 := hat.2.1 hsucc
              rw [h2.2, ha1.2.2]
              simp [List.filter_cons, hsucc]
        | false =>
          obtain ⟨new2, hn1, hn2, hn3⟩ := ih (i + 1)
            (if i < total - 1 ∧ (env.iter i).stopAfter = false then
              {(attemptContact c (env.iter i).outcome (beginContact c i total a)).1 with
                st := logAdd (attemptContact c (env.iter i).outcome (beginContact c i total a)).1.st
                  (.waiting (actualDelay delay (env.iter i).jitter))}
            else (attemptContact c (env.iter i).outcome (beginContact c i total a)).1)
          refine ⟨(c.phone_clean, (env.iter i).outcome) :: new2, ?_, ?_, ?_⟩ <;>
            rw [sendLoop] <;>
            simp only [hstop, Bool.false_eq_true, if_false, hfatal, hbroke]
          · rw [hn1]
            split <;> simp [logAdd, hat.1, ha1.1]
          · rw [hn2]
            cases hsucc : (env.iter i).outcome.isSuccess
            · have h2 := hat.2.2 hsucc
              split <;> simp [logAdd, List.filter_cons, hsucc, h2.2, ha1.2.1] <;> omega
            · have h2 := hat.2.1 hsucc
              split <;> simp [logAdd, List.filter_cons, hsucc, h2.1, ha1.2.1] <;> omega
          · rw [hn3]
            cases hsucc : (env.iter i).outcome.isSuccess
            · have h2 := hat.2.2 hsucc
              split <;> simp [logAdd, List.filter_cons, hsucc, h2.1, ha1.2.2] <;> omega
            · have h2 := hat.2.1 hsucc
              split <;> simp [logAdd, List.filter_cons, hsucc, h2.2, ha1.2.2] <;> omega

theorem logAdd_sent (st : SessionState) (e : LogEntry) :
    (logAdd st e).sent = st.sent := rfl

theorem logAdd_failed (st : SessionState) (e : LogEntry) :
    (logAdd st e).failed = st.failed := rfl

theorem setupLog_sent (env : RunEnv) (count : Nat) (st : SessionState) :
    (setupLog env count st).sent = st.sent := by
  unfold setupLog
  split <;> simp [logAdd]

theorem setupLog_failed (env : RunEnv) (count : Nat) (st : SessionState) :
    (setupLog env count st).failed = st.failed := by
  unfold setupLog
  split <;> simp [logAdd]

theorem startLog_sent (count : Nat) (contacts : List Contact) (st : SessionState) :
    (startLog count contacts st).sent = st.sent := by
  unfold startLog
  split <;> simp [logAdd]

theorem startLog_failed (count : Nat) (contacts : List Contact) (st : SessionState) :
    (startLog count contacts st).failed = st.failed := by
  unfold startLog
  split <;> simp [logAdd]

theorem finishRun_spec (a : LoopAcc) :
    (finishRun a).state.is_running = false ∧
    (finishRun a).state.current_contact = none ∧
    (finishRun a).state.current_phone = none ∧
    (finishRun a).savedLog = some ⟨a.st.sent, a.st.failed,
      a.st.sent + a.st.failed, a.st.log_messages, a.results⟩ ∧
    (finishRun a).retval = a.results ∧
    (finishRun a).attempts = a.attempts ∧
    (finishRun a).state.log_messages =
      a.st.log_messages ++ [.sessionComplete a.st.sent a.st.failed] := by
  simp [finishRun, logAdd]

theorem tryBody_counts (env : RunEnv) (delay : ℤ) (count : Nat)
    (st1 : SessionState) (hs : st1.sent = 0) (hf : st1.failed = 0) :
    (tryBody env delay count st1).st.sent =
      ((tryBody env delay count st1).attempts.filter fun p => p.2.isSuccess).length ∧
    (tryBody env delay count st1).st.failed =
      ((tryBody env delay count st1).attempts.filter fun p => !p.2.isSuccess).length := by
  unfold tryBody
  cases hsetup : env.setup with
  | error m => simp [logAdd, hs, hf]
  | ok contacts =>
    by_cases hlen : contacts.length = 0
    · simp [hlen, logAdd, setupLog_sent, setupLog_failed, hs, hf]
    · obtain ⟨new, ht1, ht2, ht3⟩ := sendLoop_trace env delay contacts.length
        contacts 0
        ⟨startLog count contacts (setupLog env count (logAdd st1 .launchingChrome)), [], [], []⟩
      simp only [startLog_sent, setupLog_sent, startLog_failed, setupLog_failed,
        logAdd_sent, logAdd_failed, hs, hf, List.nil_append, Nat.zero_add] at ht1 ht2 ht3
      cases hr2 : (sendLoop env delay contacts.length contacts 0
          ⟨startLog count contacts (setupLog env count (logAdd st1 .launchingChrome)),
           [], [], []⟩).2 with
      | some m =>
        simp only [if_neg hlen, hr2, logAdd_sent, logAdd_failed]
        exact ⟨by rw [ht2, ht1], by rw [ht3, ht1]⟩
      | none =>
        simp only [if_neg hlen, hr2]
        exact ⟨by rw [ht2, ht1], by rw [ht3, ht1]⟩

theorem sendLoop_stop_halt (env : RunEnv) (delay : ℤ) (total k : Nat)
    (hk : ∀ j, k ≤ j → (env.iter j).stopAtTop = true) :
    ∀ (cs : List Contact) (i : Nat) (a : LoopAcc),
    (sendLoop env delay total cs i a).1.attempts.length ≤
      a.attempts.length + (k - i) := by
  intro cs
  induction cs with
  | nil => intro i a; simp [sendLoop]
  | cons c rest ih =>
    intro i a
    by_cases hstop : (env.iter i).stopAtTop = true
    · rw [sendLoop]
      simp [hstop, logAdd]
    · have hik : i < k := by
        by_contra hik
        rw [Nat.not_lt] at hik
        exact hstop (hk i hik)
      rw [Bool.not_eq_true] at hstop
      cases hfatal : (env.iter i).fatal with
      | some m =>
        rw [sendLoop]
        simp only [hstop, Bool.false_eq_true, if_false, hfatal]
        simp [beginContact, logAdd]
      | none =>
        have hat := (attemptContact_trace c (env.iter i).outcome
          (beginContact c i total a)).1
        have hb1 := (beginContact_trace c i total a).1
        have hlen2 : (attemptContact c (env.iter i).outcome
            (beginContact c i total a)).1.attempts.length =
            a.attempts.length + 1 := by
          rw [hat, hb1]
          simp
        cases hbroke : (attemptContact c (env.iter i).outcome
            (beginContact c i total a)).2 with
        | true =>
          rw [sendLoop]
          simp only [hstop, Bool.false_eq_true, if_false, hfatal, hbroke, if_true]
          omega
        | false =>
          rw [sendLoop]
          simp only [hstop, Bool.false_eq_true, if_false, hfatal, hbroke]
          have key : ∀ T : LoopAcc, T.attempts.length = a.attempts.length + 1 →
              (sendLoop env delay total rest (i + 1) T).1.attempts.length ≤
                a.attempts.length + (k - i) := by
            intro T hT
            have := ih (i + 1) T
            omega
          apply key
          split <;> simp [hlen2]

theorem delayWait_full (stop : Nat → Bool) (hstop : ∀ t, stop t = false) :
    ∀ (budget t : Nat), delayWait stop budget t = budget := by
  intro budget
  induction budget with
  | zero => intro t; rfl
  | succ b ih =>
    intro t
    simp [delayWait, hstop t, ih]

theorem delayWait_le (stop : Nat → Bool) (s : Nat)
    (hs : ∀ t, s ≤ t → stop t = true) :
    ∀ (budget t : Nat), delayWait stop budget t ≤ s - t := by
  intro budget
  induction budget with
  | zero => intro t; simp [delayWait]
  | succ b ih =>
    intro t
    by_cases ht : stop t = true
    · simp [delayWait, ht]
    · have htlt : t < s := by
        by_contra hc
        rw [Nat.not_lt] at hc
        exact ht (hs t hc)
      rw [Bool.not_eq_true] at ht
      simp only [delayWait, ht, Bool.false_eq_true, if_false]
      have := ih (t + 1)
      omega

-- Claim C1: write-back and counter behaviour per delivery outcome.

/-- C1: in the loop body of `run_send_loop`, a successful delivery produces
exactly one `write_status` call, with success status, and increments the sent
counter by exactly one leaving the failed counter unchanged; a delivery that
raises `ContactNotFoundError`, `SendTimeoutError` or `WhatsAppSendError`
produces exactly one `write_status` call, with failure status, and increments
the failed counter by exactly one leaving the sent counter unchanged. -/
theorem write_back_per_outcome (c : Contact) (o : Outcome) (a : LoopAcc) :
    (o = .success →
      (attemptContact c o a).1.writes = a.writes ++ [(c.row_number, true)] ∧
      (attemptContact c o a).1.st.sent = a.st.sent + 1 ∧
      (attemptContact c o a).1.st.failed = a.st.failed) ∧
    (∀ m, (o = .contactNotFound m ∨ o = .sendTimeout m ∨ o = .whatsAppError m) →
      (attemptContact c o a).1.writes = a.writes ++ [(c.row_number, false)] ∧
      (attemptContact c o a).1.st.failed = a.st.failed + 1 ∧
      (attemptContact c o a).1.st.sent = a.st.sent) := by
  constructor
  · rintro rfl
    refine ⟨?_, ?_, ?_⟩ <;> simp [attemptContact, finishIter, logAdd]
  · rintro m (rfl | rfl | rfl) <;>
      refine ⟨?_, ?_, ?_⟩ <;> simp [attemptContact, finishIter, logAdd]

/-- A sample contact (sheet row 7) and empty accumulator used by witnesses. -/
def sampleContact : Contact :=
  ⟨7, "Lauren, David".toList, "David".toList, "+1 347 551-1532".toList,
   "13475511532".toList⟩

/-- An empty accumulator over a fresh session state. -/
def accEmpty : LoopAcc := ⟨{}, [], [], []⟩

/-- C1 (witness): the per-outcome theorem applied to `sampleContact` on a
fresh accumulator, for a success and for a timeout failure. -/
theorem write_back_per_outcome_witness :
    ((attemptContact sampleContact .success accEmpty).1.writes = [(7, true)] ∧
      (attemptContact sampleContact .success accEmpty).1.st.sent = 1) ∧
    ((attemptContact sampleContact (.sendTimeout "t".toList) accEmpty).1.writes =
        [(7, false)] ∧
      (attemptContact sampleContact (.sendTimeout "t".toList) accEmpty).1.st.failed
        = 1) := by
  have h1 := (write_back_per_outcome sampleContact .success accEmpty).1 rfl
  have h2 := (write_back_per_outcome sampleContact (.sendTimeout "t".toList)
    accEmpty).2 "t".toList (Or.inr (Or.inl rfl))
  refine ⟨⟨?_, ?_⟩, ⟨?_, ?_⟩⟩
  · simpa [accEmpty, sampleContact] using h1.1
  · simpa [accEmpty] using h1.2.1
  · simpa [accEmpty, sampleContact] using h2.1
  · simpa [accEmpty] using h2.2.1

-- Claim C8: zero pending contacts.

/-- C8: when the contact source returns zero pending contacts (and the image
exists, so the loop region is reached), `run_send_loop` on a fresh state
terminates with sent = 0, failed = 0 and the running flag cleared, returns no
results, and never invokes `send_whatsapp_message` (the delivery-attempt trace
is empty). -/
theorem run_zero_pending (env : RunEnv) (count : Nat) (delay : ℤ)
    (state0 : Option SessionState)
    (himg : env.image_exists = true) (hsetup : env.setup = .ok [])
    (hsent : (state0.getD {}).sent = 0) (hfail : (state0.getD {}).failed = 0) :
    (run_send_loop env count delay state0).state.sent = 0 ∧
    (run_send_loop env count delay state0).state.failed = 0 ∧
    (run_send_loop env count delay state0).state.is_running = false ∧
    (run_send_loop env count delay state0).attempts = [] ∧
    (run_send_loop env count delay state0).retval = [] := by
  have hrun : run_send_loop env count delay state0 =
      finishRun (tryBody env delay (min count env.daily_limit)
        (mkInitialState (min count env.daily_limit) state0)) := by
    simp [run_send_loop, himg]
  have htb : tryBody env delay (min count env.daily_limit)
      (mkInitialState (min count env.daily_limit) state0) =
      ⟨{logAdd (setupLog env (min count env.daily_limit)
          (logAdd (mkInitialState (min count env.daily_limit) state0)
            .launchingChrome)) .noPendingContacts with is_running := false},
        [], [], []⟩ := by
    unfold tryBody
    simp [hsetup]
  rw [hrun, htb]
  refine ⟨?_, ?_, ?_, ?_, ?_⟩ <;>
    simp [finishRun, logAdd_sent, logAdd_failed, setupLog_sent, setupLog_failed,
      logAdd, mkInitialState, hsent, hfail]

/-- C8 (witness): the zero-pending theorem applied to the default environment
(whose contact source yields the empty list) with a fresh state. -/
theorem run_zero_pending_witness :
    (run_send_loop {} 5 60 none).state.sent = 0 ∧
    (run_send_loop {} 5 60 none).attempts = [] := by
  have h := run_zero_pending {} 5 60 none rfl rfl rfl rfl
  exact ⟨h.1, h.2.2.2.1⟩

-- Claim C3: the finally block.

/-- A run environment whose configured image path does not exist. -/
def missingImageEnv : RunEnv := {image_exists := false}

/-- C3 (counterexample): the claim says every execution of `run_send_loop`,
however it exits, persists a structured run log.  The missing-image early
return (lines 114-117) happens before the try/finally, so on such a run
nothing is persisted: the saved log is `none`. -/
theorem run_send_loop_no_log_on_missing_image :
    (run_send_loop missingImageEnv 3 60 none).savedLog = none := rfl

/-- C3 (amended): for every execution of `run_send_loop` that passes the
image-existence check (started on a fresh state), however the loop region
exits — normal completion, stop request, broken connection, or an exception in
setup, caption formatting or mid-loop — the running flag is cleared, the
current-target fields are cleared, and a structured run log is persisted whose
sent/failed counts equal the true counts of successful/failed delivery
attempts of that run, whose total equals the number of delivery attempts,
whose results are exactly the returned outcome records, and whose message log
is the full log at save time (the final summary line is logged after the
save).  When the image is missing the function instead returns early with the
running flag cleared and persists nothing. -/
theorem run_send_loop_finally (env : RunEnv) (count : Nat) (delay : ℤ)
    (state0 : Option SessionState) (himg : env.image_exists = true)
    (hsent : (state0.getD {}).sent = 0) (hfail : (state0.getD {}).failed = 0) :
    (run_send_loop env count delay state0).state.is_running = false ∧
    (run_send_loop env count delay state0).state.current_contact = none ∧
    (run_send_loop env count delay state0).state.current_phone = none ∧
    ∃ l, (run_send_loop env count delay state0).savedLog = some l ∧
      l.sent = ((run_send_loop env count delay state0).attempts.filter
        fun p => p.2.isSuccess).length ∧
      l.failed = ((run_send_loop env count delay state0).attempts.filter
        fun p => !p.2.isSuccess).length ∧
      l.total_attempted = (run_send_loop env count delay state0).attempts.length ∧
      l.results = (run_send_loop env count delay state0).retval ∧
      (run_send_loop env count delay state0).state.log_messages =
        l.log ++ [.sessionComplete l.sent l.failed] := by
  have hrun : run_send_loop env count delay state0 =
      finishRun (tryBody env delay (min count env.daily_limit)
        (mkInitialState (min count env.daily_limit) state0)) := by
    simp [run_send_loop, himg]
  have hmk_s : (mkInitialState (min count env.daily_limit) state0).sent = 0 := by
    simp [mkInitialState, hsent]
  have hmk_f : (mkInitialState (min count env.daily_limit) state0).failed = 0 := by
    simp [mkInitialState, hfail]
  have hc := tryBody_counts env delay (min count env.daily_limit)
    (mkInitialState (min count env.daily_limit) state0) hmk_s hmk_f
  have hfr := finishRun_spec (tryBody env delay (min count env.daily_limit)
    (mkInitialState (min count env.daily_limit) state0))
  rw [hrun]
  refine ⟨hfr.1, hfr.2.1, hfr.2.2.1, ⟨_, hfr.2.2.2.1, ?_, ?_, ?_, ?_, ?_⟩⟩
  · rw [hfr.2.2.2.2.2.1]
    exact hc.1
  · rw [hfr.2.2.2.2.2.1]
    exact hc.2
  · rw [hfr.2.2.2.2.2.1, hc.1, hc.2]
    exact length_filter_add_length_filter_neg _ _
  · rw [hfr.2.2.2.2.1]
  · rw [hfr.2.2.2.2.2.2]

/-- A one-contact environment whose delivery raises `ContactNotFoundError`,
used to witness C3. -/
def c3Env : RunEnv :=
  {setup := .ok [sampleContact],
   iter := fun _ => {outcome := .contactNotFound "not on WhatsApp".toList}}

/-- C3 (witness): the finally theorem applied to `c3Env` on a fresh state; the
run persists a log whose counts match its single failed attempt. -/
theorem run_send_loop_finally_witness :
    (run_send_loop c3Env 5 60 none).state.is_running = false ∧
    ∃ l, (run_send_loop c3Env 5 60 none).savedLog = some l ∧
      l.sent = ((run_send_loop c3Env 5 60 none).attempts.filter
        fun p => p.2.isSuccess).length := by
  have h := run_send_loop_finally c3Env 5 60 none rfl rfl rfl
  obtain ⟨l, hl1, hl2, _⟩ := h.2.2.2
  exact ⟨h.1, l, hl1, hl2⟩

-- Claim C6: the inter-message delay and stop latency.

/-- C6: the inter-message sleep duration is `max(20, delay + jitter)` seconds
— the base delay plus the jitter sample (drawn from the asymmetric range
`[-5, 10]`; the uniform distribution itself is abstracted to its range),
floored at the fixed minimum of 20; with no stop request the wait performs the
full `int(actual_delay)` one-second sleeps, and the stop flag is checked
before every one-second sleep, so a stop request arriving at time `τ` ends the
wait in strictly less than `τ + 1` seconds of elapsed wait; once the stop flag
is set from some iteration on, the run records no delivery attempt beyond
those already in flight (at most `k` attempts when the flag is set from
iteration `k` onward). -/
theorem inter_message_delay_spec (delay : ℤ) (jitter τ : ℚ) (stop : Nat → Bool)
    (env : RunEnv) (count : Nat) (d2 : ℤ) (state0 : Option SessionState) :
    (-5 ≤ jitter → jitter ≤ 10 →
      20 ≤ actualDelay delay jitter ∧
      ((20:ℚ) ≤ (delay:ℚ) + jitter →
        actualDelay delay jitter = (delay:ℚ) + jitter) ∧
      20 ≤ pyInt (actualDelay delay jitter)) ∧
    ((∀ t, stop t = false) →
      delayWait stop (pyInt (actualDelay delay jitter)) 0 =
        pyInt (actualDelay delay jitter)) ∧
    (0 ≤ τ → (∀ t : Nat, τ ≤ (t:ℚ) → stop t = true) →
      ∀ budget : Nat, ((delayWait stop budget 0 : Nat) : ℚ) < τ + 1) ∧
    (∀ k, (∀ j, k ≤ j → (env.iter j).stopAtTop = true) →
      (run_send_loop env count d2 state0).attempts.length ≤ k) := by
  refine ⟨fun h1 h2 => ⟨le_max_left _ _, fun h3 => max_eq_right h3, ?_⟩,
    fun hstop => delayWait_full stop hstop _ 0, fun hτ hs budget => ?_,
    fun k hk => ?_⟩
  · have h : (20:ℚ) ≤ actualDelay delay jitter := le_max_left _ _
    have h4 : (20:ℤ) ≤ (actualDelay delay jitter).floor :=
      Rat.le_floor.mpr (by exact_mod_cast h)
    unfold pyInt
    omega
  · have hs' : ∀ t, ⌈τ⌉₊ ≤ t → stop t = true := by
      intro t ht
      apply hs
      calc τ ≤ (⌈τ⌉₊ : ℚ) := Nat.le_ceil τ
        _ ≤ (t : ℚ) := by exact_mod_cast ht
    have hle := delayWait_le stop ⌈τ⌉₊ hs' budget 0
    have hlt : ((⌈τ⌉₊ : ℕ) : ℚ) < τ + 1 := Nat.ceil_lt_add_one hτ
    have hle2 : ((delayWait stop budget 0 : ℕ) : ℚ) ≤ ((⌈τ⌉₊ : ℕ) : ℚ) := by
      exact_mod_cast (by omega : delayWait stop budget 0 ≤ ⌈τ⌉₊)
    linarith
  · by_cases himg : env.image_exists = false
    · simp [run_send_loop, himg]
    · have himg' : env.image_exists = true := by
        revert himg
        cases env.image_exists <;> simp
      have hrun : run_send_loop env count d2 state0 =
          finishRun (tryBody env d2 (min count env.daily_limit)
            (mkInitialState (min count env.daily_limit) state0)) := by
        simp [run_send_loop, himg']
      rw [hrun, (finishRun_spec _).2.2.2.2.2.1]
      unfold tryBody
      cases hsetup : env.setup with
      | error m => simp
      | ok contacts =>
        by_cases hlen : contacts.length = 0
        · simp [hlen]
        · have hhalt := sendLoop_stop_halt env d2 contacts.length k hk contacts 0
            ⟨startLog (min count env.daily_limit) contacts
              (setupLog env (min count env.daily_limit)
                (logAdd (mkInitialState (min count env.daily_limit) state0)
                  .launchingChrome)), [], [], []⟩
          cases hr2 : (sendLoop env d2 contacts.length contacts 0
              ⟨startLog (min count env.daily_limit) contacts
                (setupLog env (min count env.daily_limit)
                  (logAdd (mkInitialState (min count env.daily_limit) state0)
                    .launchingChrome)), [], [], []⟩).2 with
          | some m =>
            simp only [if_neg hlen, hr2]
            simpa using hhalt
          | none =>
            simp only [if_neg hlen, hr2]
            simpa using hhalt

/-- An environment whose stop flag is observed set from iteration 1 onward. -/
def c6Env : RunEnv :=
  {setup := .ok [sampleContact, sampleContact, sampleContact],
   iter := fun j => if 1 ≤ j then {stopAtTop := true} else {}}

/-- C6 (witness): the delay theorem at `delay = 60`, `jitter = 3`, a stop
request at `τ = 2` seconds, and a three-contact run whose stop flag is set
from iteration 1 on, which records at most one delivery attempt. -/
theorem inter_message_delay_spec_witness :
    20 ≤ actualDelay 60 3 ∧
    ((delayWait (fun t => decide (2 ≤ t)) 25 0 : Nat) : ℚ) < 2 + 1 ∧
    (run_send_loop c6Env 5 60 none).attempts.length ≤ 1 := by
  have h := inter_message_delay_spec 60 3 2 (fun t => decide (2 ≤ t))
    c6Env 5 60 none
  refine ⟨(h.1 (by norm_num) (by norm_num)).1, ?_, ?_⟩
  · refine h.2.2.1 (by norm_num) (fun t ht => ?_) 25
    simp only [decide_eq_true_eq]
    exact_mod_cast ht
  · exact h.2.2.2 1 (fun j hj => by simp [c6Env, hj])
